import Mathlib

-- Shallow embedding of the alert-aid risk-prediction engine.
-- The numeric model uses exact rationals for the floating-point arithmetic of
-- the source; the wall-clock month, every random jitter draw, the uniform
-- fault-distance factor and the uniform earthquake display draw are explicit
-- parameters, so each source function becomes a pure total function.

namespace AlertAid

/-- Integer rounding with ties to even, the rule used by the Python builtin
round. -/
def roundHalfEven (x : ℚ) : ℤ :=
  if x - ⌊x⌋ < 1/2 then ⌊x⌋
  else if 1/2 < x - ⌊x⌋ then ⌊x⌋ + 1
  else if ⌊x⌋ % 2 = 0 then ⌊x⌋ else ⌊x⌋ + 1

/-- The Python builtin round(x, d) to d decimal places. -/
def pyround (x : ℚ) (d : ℕ) : ℚ :=
  (roundHalfEven (x * 10 ^ d) : ℚ) / 10 ^ d

lemma roundHalfEven_intCast (m : ℤ) : roundHalfEven (m : ℚ) = m := by
  unfold roundHalfEven
  rw [Int.floor_intCast, sub_self, if_pos (by norm_num : (0:ℚ) < 1/2)]

lemma le_roundHalfEven {m : ℤ} {x : ℚ} (h : (m : ℚ) ≤ x) :
    m ≤ roundHalfEven x := by
  have hf : m ≤ ⌊x⌋ := Int.le_floor.mpr h
  unfold roundHalfEven
  split_ifs <;> omega

lemma roundHalfEven_le {m : ℤ} {x : ℚ} (h : x ≤ (m : ℚ)) :
    roundHalfEven x ≤ m := by
  have hfl : ⌊x⌋ ≤ m := by
    have := Int.floor_le_floor h
    simpa using this
  have hfx : (⌊x⌋ : ℚ) ≤ x := Int.floor_le x
  unfold roundHalfEven
  split_ifs with h1 h2 h3
  · exact hfl
  · have hlt : (⌊x⌋ : ℚ) < (m : ℚ) := by linarith
    have : ⌊x⌋ < m := by exact_mod_cast hlt
    omega
  · exact hfl
  · have heq : x - ⌊x⌋ = 1/2 := le_antisymm (not_lt.mp h2) (not_lt.mp h1)
    have hlt : (⌊x⌋ : ℚ) < (m : ℚ) := by linarith
    have : ⌊x⌋ < m := by exact_mod_cast hlt
    omega

lemma pyround_nonneg {x : ℚ} (d : ℕ) (h : 0 ≤ x) : 0 ≤ pyround x d := by
  unfold pyround
  apply div_nonneg _ (by positivity)
  have h0 : ((0 : ℤ) : ℚ) ≤ x * 10 ^ d := by positivity
  have := le_roundHalfEven h0
  exact_mod_cast this

lemma pyround_le_intCast {x : ℚ} {m : ℤ} (d : ℕ) (h : x ≤ (m : ℚ)) :
    pyround x d ≤ (m : ℚ) := by
  unfold pyround
  rw [div_le_iff₀ (by positivity : (0:ℚ) < 10 ^ d)]
  have hx : x * 10 ^ d ≤ ((m * 10 ^ d : ℤ) : ℚ) := by
    push_cast
    exact mul_le_mul_of_nonneg_right h (by positivity)
  have hb := roundHalfEven_le hx
  calc (roundHalfEven (x * 10 ^ d) : ℚ) ≤ ((m * 10 ^ d : ℤ) : ℚ) := by
        exact_mod_cast hb
    _ = (m : ℚ) * 10 ^ d := by push_cast; ring

lemma pyround_half (k : ℤ) : pyround ((k : ℚ) / 2) 1 = (k : ℚ) / 2 := by
  unfold pyround
  have h : (k : ℚ) / 2 * 10 ^ 1 = ((5 * k : ℤ) : ℚ) := by push_cast; ring
  rw [h, roundHalfEven_intCast]
  push_cast
  ring

-- ## Hazard scorers (src/backend/routes/predict.py)

/-- _calculate_wildfire_risk: temperature, humidity and wind factors, latitude
and seasonal multipliers, jitter drawn uniformly from [-0.1, 0.1]. -/
def calculate_wildfire_risk (temp humidity wind lat : ℚ) (month : ℕ)
    (jitter : ℚ) : ℚ :=
  let temp_factor := max 0 ((temp - 20) / 30)
  let humidity_factor := max 0 ((70 - humidity) / 70)
  let wind_factor := min 1 (wind / 25)
  let lat_factor : ℚ :=
    if 30 ≤ |lat| ∧ |lat| ≤ 50 then 1.3 else if |lat| < 10 then 0.7 else 1.0
  let seasonal_factor : ℚ :=
    if month ∈ [6, 7, 8, 9] then 1.4
    else if month ∈ [12, 1, 2] then 0.6 else 1.0
  let base_risk := temp_factor * 0.3 + humidity_factor * 0.4 + wind_factor * 0.3
  let final_risk := base_risk * lat_factor * seasonal_factor + jitter
  max 0 (min 1 final_risk)

/-- _calculate_flood_risk: humidity, pressure and temperature factors, coastal
and seasonal multipliers, jitter drawn uniformly from [-0.08, 0.08]. -/
def calculate_flood_risk (humidity pressure temp lat : ℚ) (month : ℕ)
    (jitter : ℚ) : ℚ :=
  let humidity_factor := min 1 ((humidity - 50) / 40)
  let pressure_factor := max 0 ((1020 - pressure) / 20)
  let temp_factor : ℚ := if 5 ≤ temp ∧ temp ≤ 35 then 0.3 else 0.1
  let coastal_factor : ℚ := if |lat| < 45 then 1.2 else 1.0
  let seasonal_factor : ℚ :=
    if month ∈ [5, 6, 7, 8, 9, 10] then 1.3 else 0.8
  let base_risk :=
    humidity_factor * 0.4 + pressure_factor * 0.4 + temp_factor * 0.2
  let final_risk := base_risk * coastal_factor * seasonal_factor + jitter
  max 0 (min 1 final_risk)

/-- _calculate_storm_risk: wind, pressure, humidity and temperature factors,
jitter drawn uniformly from [-0.1, 0.1]. -/
def calculate_storm_risk (wind pressure humidity temp : ℚ) (jitter : ℚ) : ℚ :=
  let wind_factor := min 1 (wind / 30)
  let pressure_factor := max 0 ((1020 - pressure) / 25)
  let humidity_factor := min 1 ((humidity - 60) / 30)
  let temp_factor : ℚ := if 15 ≤ temp ∧ temp ≤ 40 then 0.4 else 0.2
  let base_risk := wind_factor * 0.35 + pressure_factor * 0.35 +
    humidity_factor * 0.2 + temp_factor * 0.1 + jitter
  max 0 (min 1 base_risk)

/-- One geological risk zone: a latitude range, a longitude range and a base
risk. -/
structure RiskZone where
  lat_lo : ℚ
  lat_hi : ℚ
  lon_lo : ℚ
  lon_hi : ℚ
  risk : ℚ
deriving DecidableEq

/-- The static zone table of _calculate_earthquake_risk: California, Japan,
New Zealand, Turkey/Greece. -/
def risk_zones : List RiskZone :=
  [⟨32, 42, -125, -114, 0.4⟩,
   ⟨35, 45, 135, 145, 0.5⟩,
   ⟨-45, -35, 165, 180, 0.3⟩,
   ⟨36, 42, 25, 35, 0.25⟩]

/-- A coordinate lies inside the rectangle of a zone. -/
def inZone (z : RiskZone) (lat lon : ℚ) : Prop :=
  z.lat_lo ≤ lat ∧ lat ≤ z.lat_hi ∧ z.lon_lo ≤ lon ∧ lon ≤ z.lon_hi

instance (z : RiskZone) (lat lon : ℚ) : Decidable (inZone z lat lon) := by
  unfold inZone
  infer_instance

/-- The zone-table part of _calculate_earthquake_risk: the 0.02 global floor
raised to each matching zone risk in table order. -/
def earthquake_base_risk (lat lon : ℚ) : ℚ :=
  risk_zones.foldl (fun b z => if inZone z lat lon then max b z.risk else b) 0.02

/-- _calculate_earthquake_risk: base risk times the uniform fault-distance
factor from [0.7, 1.3], plus jitter drawn uniformly from [-0.02, 0.02]. -/
def calculate_earthquake_risk (lat lon : ℚ) (fault_factor jitter : ℚ) : ℚ :=
  let final_risk := earthquake_base_risk lat lon * fault_factor + jitter
  max 0 (min 1 final_risk)

-- ## Severity, factors, actions

/-- _get_severity_level. -/
def get_severity_level (probability : ℚ) : String :=
  if probability ≥ 0.7 then "critical"
  else if probability ≥ 0.5 then "high"
  else if probability ≥ 0.3 then "moderate"
  else if probability ≥ 0.1 then "low"
  else "minimal"

/-- Order of the severity labels, for stating monotonicity. -/
def severity_rank (s : String) : ℕ :=
  if s = "critical" then 4
  else if s = "high" then 3
  else if s = "moderate" then 2
  else if s = "low" then 1
  else 0

/-- _get_wildfire_factors. -/
def get_wildfire_factors (temp humidity wind : ℚ) : List String :=
  let factors :=
    (if temp > 30 then ["high_temperature"] else []) ++
    (if humidity < 30 then ["low_humidity"] else []) ++
    (if wind > 15 then ["strong_winds"] else [])
  if factors = [] then ["moderate_conditions"] else factors

/-- _get_flood_factors. -/
def get_flood_factors (humidity pressure temp : ℚ) : List String :=
  let factors :=
    (if humidity > 80 then ["high_humidity"] else []) ++
    (if pressure < 1005 then ["low_pressure_system"] else []) ++
    (if temp > 25 then ["thunderstorm_conditions"] else [])
  if factors = [] then ["stable_conditions"] else factors

/-- _get_storm_factors. -/
def get_storm_factors (wind pressure humidity : ℚ) : List String :=
  let factors :=
    (if wind > 20 then ["high_winds"] else []) ++
    (if pressure < 1010 then ["pressure_drop"] else []) ++
    (if humidity > 75 then ["moisture_buildup"] else [])
  if factors = [] then ["calm_conditions"] else factors

/-- _get_wildfire_actions. -/
def get_wildfire_actions (risk : ℚ) : List String :=
  if risk ≥ 0.6 then
    ["evacuate_high_risk_areas", "emergency_services_alert",
     "fire_suppression_ready"]
  else if risk ≥ 0.3 then
    ["increase_fire_watch", "prepare_evacuation_routes",
     "limit_outdoor_activities"]
  else ["monitor_conditions", "maintain_fire_safety_measures"]

/-- _get_flood_actions. -/
def get_flood_actions (risk : ℚ) : List String :=
  if risk ≥ 0.6 then
    ["evacuate_flood_zones", "sandbag_operations", "emergency_shelters_open"]
  else if risk ≥ 0.3 then
    ["flood_watch_active", "secure_loose_items", "avoid_low_areas"]
  else ["monitor_water_levels", "check_drainage_systems"]

/-- _get_storm_actions. -/
def get_storm_actions (risk : ℚ) : List String :=
  if risk ≥ 0.6 then
    ["severe_weather_warning", "seek_indoor_shelter", "avoid_travel"]
  else if risk ≥ 0.3 then
    ["weather_watch", "secure_outdoor_items", "monitor_updates"]
  else ["normal_weather_precautions", "stay_informed"]

/-- _get_earthquake_actions. -/
def get_earthquake_actions (risk : ℚ) : List String :=
  if risk ≥ 0.4 then
    ["earthquake_preparedness_high", "secure_heavy_objects",
     "review_evacuation_plans"]
  else if risk ≥ 0.2 then
    ["earthquake_awareness", "emergency_kit_ready", "building_inspections"]
  else ["basic_earthquake_preparedness", "know_safety_procedures"]

-- ## Prediction records and the assembler

/-- One entry of the assembled prediction list. -/
structure Prediction where
  type : String
  probability : ℚ
  severity : String
  time_window : String
  factors : List String
  recommended_actions : List String
deriving DecidableEq

/-- The wildfire entry appended by _enhanced_disaster_prediction. -/
def wildfire_prediction (risk temp humidity wind : ℚ) : Prediction :=
  { type := "wildfire"
    probability := pyround risk 3
    severity := get_severity_level risk
    time_window := "24-72 hours"
    factors := get_wildfire_factors temp humidity wind
    recommended_actions := get_wildfire_actions risk }

/-- The flood entry appended by _enhanced_disaster_prediction. -/
def flood_prediction (risk humidity pressure temp : ℚ) : Prediction :=
  { type := "flood"
    probability := pyround risk 3
    severity := get_severity_level risk
    time_window := "6-48 hours"
    factors := get_flood_factors humidity pressure temp
    recommended_actions := get_flood_actions risk }

/-- The severe-weather entry appended by _enhanced_disaster_prediction. -/
def storm_prediction (risk wind pressure humidity : ℚ) : Prediction :=
  { type := "severe_weather"
    probability := pyround risk 3
    severity := get_severity_level risk
    time_window := "3-24 hours"
    factors := get_storm_factors wind pressure humidity
    recommended_actions := get_storm_actions risk }

/-- The earthquake entry appended by _enhanced_disaster_prediction. -/
def earthquake_prediction (risk : ℚ) : Prediction :=
  { type := "earthquake"
    probability := pyround risk 3
    severity := get_severity_level risk
    time_window := "geological timescale"
    factors := ["tectonic_activity", "geological_history", "seismic_patterns"]
    recommended_actions := get_earthquake_actions risk }

/-- The synthetic entry emitted when no hazard clears its threshold. -/
def low_risk_prediction : Prediction :=
  { type := "low_risk"
    probability := 0.05
    severity := "minimal"
    time_window := "current"
    factors := ["stable_conditions"]
    recommended_actions := ["maintain_normal_vigilance",
                            "monitor_weather_updates"] }

/-- _enhanced_disaster_prediction: run the four scorers, keep each hazard
whose risk exceeds its inclusion threshold, fall back to the synthetic
low-risk entry when none qualifies. -/
def enhanced_disaster_prediction (temp humidity wind pressure lat lon : ℚ)
    (month : ℕ) (jw jf js ff je : ℚ) : List Prediction :=
  let wildfire_risk := calculate_wildfire_risk temp humidity wind lat month jw
  let flood_risk := calculate_flood_risk humidity pressure temp lat month jf
  let storm_risk := calculate_storm_risk wind pressure humidity temp js
  let earthquake_risk := calculate_earthquake_risk lat lon ff je
  let predictions :=
    (if wildfire_risk > 0.1 then
      [wildfire_prediction wildfire_risk temp humidity wind] else []) ++
    (if flood_risk > 0.1 then
      [flood_prediction flood_risk humidity pressure temp] else []) ++
    (if storm_risk > 0.15 then
      [storm_prediction storm_risk wind pressure humidity] else []) ++
    (if earthquake_risk > 0.05 then
      [earthquake_prediction earthquake_risk] else [])
  if predictions = [] then [low_risk_prediction] else predictions

-- ## Aggregation (the two hazard-scorer endpoints and the rule-based path)

/-- The Python max over the probabilities of a nonempty list (the guard value
for the empty list is never used by the callers). -/
def list_max : List ℚ → ℚ
  | [] => 0
  | x :: xs => xs.foldl max x

/-- max(p["probability"] for p in predictions). -/
def prob_max (predictions : List Prediction) : ℚ :=
  list_max (predictions.map Prediction.probability)

/-- sum(p["probability"] for p in predictions) / len(predictions). -/
def prob_avg (predictions : List Prediction) : ℚ :=
  (predictions.map Prediction.probability).sum / predictions.length

/-- next((p["probability"] * 10 for p in predictions if p["type"] == t),
fallback). -/
def next_prob (t : String) (predictions : List Prediction) (fallback : ℚ) :
    ℚ :=
  match predictions.find? (fun p => p.type == t) with
  | some p => p.probability * 10
  | none => fallback

/-- The overall risk score of POST /predict/disaster (lines 76-94): the
max/avg combination floored at the 1.5 baseline, then the humidity and
visibility modifiers, clamped to 10 and rounded to 1 decimal. -/
def post_risk_score (predictions : List Prediction)
    (humidity visibility : ℚ) : ℚ :=
  let base_risk : ℚ := 1.5
  let risk_score :=
    if predictions = [] then base_risk
    else
      pyround
        (max ((prob_max predictions * 0.6 + prob_avg predictions * 0.4) * 10)
          base_risk) 1
  let risk_score :=
    risk_score + (if humidity > 90 then 1.0 else if humidity > 80 then 0.5
      else 0)
  let risk_score := risk_score + (if visibility < 5 then 0.5 else 0)
  pyround (min risk_score 10.0) 1

/-- The overall risk score of GET /predict/disaster-risk (lines 219-249):
same combination when predictions exist, otherwise the baseline plus the
visibility, humidity and extreme-temperature ladder, clamped and rounded. -/
def get_risk_score (predictions : List Prediction)
    (temp humidity visibility : ℚ) : ℚ :=
  let base_risk : ℚ := 1.5
  if predictions = [] then
    let risk_score := base_risk
    let risk_score :=
      risk_score + (if visibility < 2 then 1.5 else if visibility < 5 then 0.5
        else 0)
    let risk_score :=
      risk_score + (if humidity > 90 then 1.0 else if humidity > 80 then 0.5
        else 0)
    let risk_score :=
      risk_score + (if temp > 40 ∨ temp < 0 then 1.5
        else if temp > 35 ∨ temp < 5 then 0.5 else 0)
    pyround (min risk_score 10.0) 1
  else
    pyround
      (max ((prob_max predictions * 0.6 + prob_avg predictions * 0.4) * 10)
        base_risk) 1

/-- The fields of the POST /predict/disaster response modelled here. -/
structure PostRiskResponse where
  overall_risk : String
  risk_score : ℚ
  flood_risk : ℚ
  fire_risk : ℚ
  earthquake_risk : ℚ
  storm_risk : ℚ
  confidence : ℚ

/-- predict_disaster_from_location, after the weather fetch: the enhanced
predictions, the overall score and category, and the four display scores. -/
def predict_disaster_from_location
    (temp humidity wind pressure lat lon visibility : ℚ) (month : ℕ)
    (jw jf js ff je : ℚ) : PostRiskResponse :=
  let predictions :=
    enhanced_disaster_prediction temp humidity wind pressure lat lon month
      jw jf js ff je
  let risk_score := post_risk_score predictions humidity visibility
  { overall_risk :=
      if risk_score ≥ 7 then "critical"
      else if risk_score ≥ 5 then "high"
      else if risk_score ≥ 3 then "moderate"
      else "low"
    risk_score := risk_score
    flood_risk :=
      min (pyround (next_prob "flood" predictions (max 1.5 (humidity / 40))) 1)
        10.0
    fire_risk :=
      min (pyround
        (next_prob "wildfire" predictions (max 1.0 ((100 - humidity) / 40))) 1)
        10.0
    earthquake_risk :=
      min (pyround (next_prob "earthquake" predictions 2.5) 1) 10.0
    storm_risk :=
      min (pyround
        (next_prob "severe_weather" predictions (max 1.5 (wind / 10))) 1) 10.0
    confidence := 0.85 }

/-- The fields of the GET /predict/disaster-risk response modelled here. -/
structure GetRiskResponse where
  overall_risk : String
  risk_score : ℚ
  flood_risk : ℚ
  fire_risk : ℚ
  storm_risk : ℚ
  earthquake_risk : ℚ
  predictions : List Prediction
  confidence : ℚ

/-- get_disaster_risk, after the weather fetch; r is the uniform draw from
[1, 3] used for the earthquake display score. -/
def get_disaster_risk (temp humidity wind pressure lat lon visibility : ℚ)
    (month : ℕ) (jw jf js ff je r : ℚ) : GetRiskResponse :=
  let predictions :=
    enhanced_disaster_prediction temp humidity wind pressure lat lon month
      jw jf js ff je
  let risk_score := get_risk_score predictions temp humidity visibility
  { overall_risk :=
      if risk_score ≥ 7 then "critical"
      else if risk_score ≥ 5 then "high"
      else if risk_score ≥ 3 then "moderate"
      else "low"
    risk_score := risk_score
    flood_risk :=
      min (pyround (next_prob "flood" predictions (max 1.5 (humidity / 40))) 1)
        10.0
    fire_risk :=
      min (pyround
        (next_prob "wildfire" predictions (max 1.0 ((100 - humidity) / 40))) 1)
        10.0
    storm_risk :=
      min (pyround
        (next_prob "severe_weather" predictions (max 1.5 (wind / 10))) 1) 10.0
    earthquake_risk := pyround r 1
    predictions := predictions
    confidence := 0.85 }

/-- _calculate_overall_confidence. -/
def calculate_overall_confidence (predictions : List Prediction) : String :=
  if predictions = [] then "low"
  else
    let max_prob := prob_max predictions
    if max_prob ≥ 0.6 then "high"
    else if max_prob ≥ 0.3 then "medium"
    else "low"

/-- The fields of the rule-based calculate_risk result (src/api/predict.py). -/
structure SimpleRiskResult where
  overall_risk : String
  risk_score : ℚ
  flood_risk : ℚ
  fire_risk : ℚ
  earthquake_risk : ℚ
  storm_risk : ℚ
  confidence : ℚ

/-- The accumulated risk_score of calculate_risk: base 3.0 plus the
temperature, wind, low-humidity, high-humidity and pressure increments, in
source order. -/
def simple_risk_score (temp humidity wind_speed pressure : ℚ) : ℚ :=
  3.0 + (if temp > 35 ∨ temp < 5 then 2 else if temp > 30 ∨ temp < 10 then 1
      else 0)
    + (if wind_speed > 20 then 2 else if wind_speed > 15 then 1 else 0)
    + (if humidity < 30 then 1.5 else 0)
    + (if humidity > 80 then 1 else 0)
    + (if pressure < 1000 then 1.5 else 0)

/-- The storm sub-score of calculate_risk: wind tier plus pressure bump. -/
def simple_storm_risk (wind_speed pressure : ℚ) : ℚ :=
  (if wind_speed > 20 then 8.0 else if wind_speed > 15 then 6.0
    else if wind_speed > 10 then 4.0 else 2.0)
    + (if pressure < 1000 then 2 else 0)

/-- calculate_risk (src/api/predict.py); r is the uniform draw from [1, 3]
used for the earthquake display score. -/
def calculate_risk (temp humidity wind_speed pressure : ℚ) (r : ℚ) :
    SimpleRiskResult :=
  let risk_score := simple_risk_score temp humidity wind_speed pressure
  { overall_risk :=
      if risk_score ≥ 8 then "critical"
      else if risk_score ≥ 6 then "high"
      else if risk_score ≥ 4 then "moderate"
      else "low"
    risk_score := min (pyround risk_score 1) 10
    flood_risk :=
      min (pyround (if humidity > 80 then 6.0 else if humidity > 70 then 4.0
        else 2.0) 1) 10
    fire_risk :=
      min (pyround (if humidity < 30 then 7.0 else if humidity < 50 then 4.0
        else 2.0) 1) 10
    earthquake_risk := pyround r 1
    storm_risk := min (pyround (simple_storm_risk wind_speed pressure) 1) 10
    confidence := 0.85 }

-- ## Claim-side reference definitions

/-- The overall-risk category thresholds used by both hazard-scorer
aggregation paths, as the spec states them. -/
def enhanced_category (risk_score : ℚ) : String :=
  if risk_score ≥ 7 then "critical"
  else if risk_score ≥ 5 then "high"
  else if risk_score ≥ 3 then "moderate"
  else "low"

/-- The overall-risk category thresholds of the rule-based path, as the spec
states them. -/
def simple_category (risk_score : ℚ) : String :=
  if risk_score ≥ 8 then "critical"
  else if risk_score ≥ 6 then "high"
  else if risk_score ≥ 4 then "moderate"
  else "low"

/-- Modelled from the spec wording of claim C2, read literally: the overall
score is round(max(1.5, max_prob*0.6 + avg_prob*0.4) * 10, 1) with the
multiplication by 10 outside the max, then the same modifiers, clamp and
rounding. Kept for comparison with the code. -/
def claim_c2_risk_score (predictions : List Prediction)
    (humidity visibility : ℚ) : ℚ :=
  let risk_score :=
    if predictions = [] then (1.5 : ℚ)
    else
      pyround
        ((max 1.5 (prob_max predictions * 0.6 + prob_avg predictions * 0.4))
          * 10) 1
  let risk_score :=
    risk_score + (if humidity > 90 then 1.0 else if humidity > 80 then 0.5
      else 0)
  let risk_score := risk_score + (if visibility < 5 then 0.5 else 0)
  pyround (min risk_score 10.0) 1

-- ## Shared helper lemmas

lemma calculate_wildfire_risk_bounds (temp humidity wind lat : ℚ) (month : ℕ)
    (j : ℚ) : 0 ≤ calculate_wildfire_risk temp humidity wind lat month j ∧
      calculate_wildfire_risk temp humidity wind lat month j ≤ 1 := by
  unfold calculate_wildfire_risk
  exact ⟨le_max_left _ _, max_le (by norm_num) (min_le_left _ _)⟩

lemma calculate_flood_risk_bounds (humidity pressure temp lat : ℚ) (month : ℕ)
    (j : ℚ) : 0 ≤ calculate_flood_risk humidity pressure temp lat month j ∧
      calculate_flood_risk humidity pressure temp lat month j ≤ 1 := by
  unfold calculate_flood_risk
  exact ⟨le_max_left _ _, max_le (by norm_num) (min_le_left _ _)⟩

lemma calculate_storm_risk_bounds (wind pressure humidity temp : ℚ) (j : ℚ) :
    0 ≤ calculate_storm_risk wind pressure humidity temp j ∧
      calculate_storm_risk wind pressure humidity temp j ≤ 1 := by
  unfold calculate_storm_risk
  exact ⟨le_max_left _ _, max_le (by norm_num) (min_le_left _ _)⟩

lemma calculate_earthquake_risk_bounds (lat lon ff je : ℚ) :
    0 ≤ calculate_earthquake_risk lat lon ff je ∧
      calculate_earthquake_risk lat lon ff je ≤ 1 := by
  unfold calculate_earthquake_risk
  exact ⟨le_max_left _ _, max_le (by norm_num) (min_le_left _ _)⟩

/-- Membership in the assembled prediction list, case by case. -/
lemma mem_enhanced_iff {temp humidity wind pressure lat lon : ℚ} {month : ℕ}
    {jw jf js ff je : ℚ} {p : Prediction} :
    p ∈ enhanced_disaster_prediction temp humidity wind pressure lat lon month
        jw jf js ff je ↔
      (calculate_wildfire_risk temp humidity wind lat month jw > 0.1 ∧
        p = wildfire_prediction
          (calculate_wildfire_risk temp humidity wind lat month jw)
          temp humidity wind) ∨
      (calculate_flood_risk humidity pressure temp lat month jf > 0.1 ∧
        p = flood_prediction
          (calculate_flood_risk humidity pressure temp lat month jf)
          humidity pressure temp) ∨
      (calculate_storm_risk wind pressure humidity temp js > 0.15 ∧
        p = storm_prediction
          (calculate_storm_risk wind pressure humidity temp js)
          wind pressure humidity) ∨
      (calculate_earthquake_risk lat lon ff je > 0.05 ∧
        p = earthquake_prediction (calculate_earthquake_risk lat lon ff je)) ∨
      (¬ calculate_wildfire_risk temp humidity wind lat month jw > 0.1 ∧
        ¬ calculate_flood_risk humidity pressure temp lat month jf > 0.1 ∧
        ¬ calculate_storm_risk wind pressure humidity temp js > 0.15 ∧
        ¬ calculate_earthquake_risk lat lon ff je > 0.05 ∧
        p = low_risk_prediction) := by
  by_cases hw : calculate_wildfire_risk temp humidity wind lat month jw > 0.1 <;>
  by_cases hf : calculate_flood_risk humidity pressure temp lat month jf > 0.1 <;>
  by_cases hs : calculate_storm_risk wind pressure humidity temp js > 0.15 <;>
  by_cases he : calculate_earthquake_risk lat lon ff je > 0.05 <;>
  simp [enhanced_disaster_prediction, hw, hf, hs, he]

lemma ite_nil_ne_nil (l : List Prediction) :
    (if l = [] then [low_risk_prediction] else l) ≠ [] := by
  split
  · simp
  · assumption

/-- The assembled prediction list is never empty. -/
lemma enhanced_ne_nil (temp humidity wind pressure lat lon : ℚ) (month : ℕ)
    (jw jf js ff je : ℚ) :
    enhanced_disaster_prediction temp humidity wind pressure lat lon month
      jw jf js ff je ≠ [] := by
  simp only [enhanced_disaster_prediction]
  exact ite_nil_ne_nil _

lemma le_foldl_max (l : List ℚ) (a : ℚ) : a ≤ l.foldl max a := by
  induction l generalizing a with
  | nil => exact le_refl a
  | cons x xs ih => exact le_trans (le_max_left a x) (ih (max a x))

lemma foldl_max_le {c : ℚ} (l : List ℚ) (a : ℚ) (ha : a ≤ c)
    (h : ∀ x ∈ l, x ≤ c) : l.foldl max a ≤ c := by
  induction l generalizing a with
  | nil => exact ha
  | cons x xs ih =>
    exact ih (max a x) (max_le ha (h x (List.mem_cons_self x xs)))
      (fun y hy => h y (List.mem_cons_of_mem x hy))

lemma list_sum_le_length (l : List ℚ) (h : ∀ x ∈ l, x ≤ 1) :
    l.sum ≤ l.length := by
  induction l with
  | nil => simp
  | cons x xs ih =>
    simp only [List.sum_cons, List.length_cons]
    have h1 := h x (List.mem_cons_self x xs)
    have h2 := ih (fun y hy => h y (List.mem_cons_of_mem x hy))
    push_cast
    linarith

lemma list_sum_nonneg (l : List ℚ) (h : ∀ x ∈ l, 0 ≤ x) : 0 ≤ l.sum := by
  induction l with
  | nil => simp
  | cons x xs ih =>
    simp only [List.sum_cons]
    have h1 := h x (List.mem_cons_self x xs)
    have h2 := ih (fun y hy => h y (List.mem_cons_of_mem x hy))
    linarith

lemma prob_max_nonneg (ps : List Prediction)
    (h : ∀ p ∈ ps, 0 ≤ p.probability) : 0 ≤ prob_max ps := by
  cases ps with
  | nil => norm_num [prob_max, list_max]
  | cons p rest =>
    have h0 : 0 ≤ p.probability := h p (List.mem_cons_self _ _)
    have h1 := le_foldl_max (rest.map Prediction.probability) p.probability
    simp only [prob_max, List.map_cons, list_max]
    linarith

lemma prob_max_le_one (ps : List Prediction)
    (h : ∀ p ∈ ps, p.probability ≤ 1) : prob_max ps ≤ 1 := by
  cases ps with
  | nil => norm_num [prob_max, list_max]
  | cons p rest =>
    simp only [prob_max, List.map_cons, list_max]
    apply foldl_max_le _ _ (h p (List.mem_cons_self _ _))
    intro x hx
    obtain ⟨q, hq, rfl⟩ := List.mem_map.mp hx
    exact h q (List.mem_cons_of_mem _ hq)

lemma prob_avg_nonneg (ps : List Prediction)
    (h : ∀ p ∈ ps, 0 ≤ p.probability) : 0 ≤ prob_avg ps := by
  unfold prob_avg
  apply div_nonneg _ (by positivity)
  apply list_sum_nonneg
  intro x hx
  obtain ⟨q, hq, rfl⟩ := List.mem_map.mp hx
  exact h q hq

lemma prob_avg_le_one (ps : List Prediction)
    (h : ∀ p ∈ ps, p.probability ≤ 1) : prob_avg ps ≤ 1 := by
  cases ps with
  | nil => norm_num [prob_avg]
  | cons p rest =>
    unfold prob_avg
    have hpos : (0 : ℚ) < ((p :: rest).length : ℚ) := by
      simp only [List.length_cons]
      push_cast
      positivity
    rw [div_le_one hpos]
    have hs := list_sum_le_length ((p :: rest).map Prediction.probability)
      (by
        intro x hx
        obtain ⟨q, hq, rfl⟩ := List.mem_map.mp hx
        exact h q hq)
    simpa using hs

lemma combo_bounds (ps : List Prediction)
    (h : ∀ p ∈ ps, 0 ≤ p.probability ∧ p.probability ≤ 1) :
    0 ≤ prob_max ps * 0.6 + prob_avg ps * 0.4 ∧
      prob_max ps * 0.6 + prob_avg ps * 0.4 ≤ 1 := by
  have h1 := prob_max_nonneg ps (fun p hp => (h p hp).1)
  have h2 := prob_max_le_one ps (fun p hp => (h p hp).2)
  have h3 := prob_avg_nonneg ps (fun p hp => (h p hp).1)
  have h4 := prob_avg_le_one ps (fun p hp => (h p hp).2)
  constructor <;> nlinarith

/-- Every probability in the assembled list lies in [0, 1]. -/
lemma enhanced_probability_bounds {temp humidity wind pressure lat lon : ℚ}
    {month : ℕ} {jw jf js ff je : ℚ} :
    ∀ p ∈ enhanced_disaster_prediction temp humidity wind pressure lat lon
        month jw jf js ff je, 0 ≤ p.probability ∧ p.probability ≤ 1 := by
  intro p hp
  rw [mem_enhanced_iff] at hp
  rcases hp with ⟨h, rfl⟩ | ⟨h, rfl⟩ | ⟨h, rfl⟩ | ⟨h, rfl⟩ |
    ⟨h1, h2, h3, h4, rfl⟩
  · have hb := calculate_wildfire_risk_bounds temp humidity wind lat month jw
    exact ⟨pyround_nonneg 3 hb.1,
      by simpa using pyround_le_intCast (m := 1) 3 (by exact_mod_cast hb.2)⟩
  · have hb := calculate_flood_risk_bounds humidity pressure temp lat month jf
    exact ⟨pyround_nonneg 3 hb.1,
      by simpa using pyround_le_intCast (m := 1) 3 (by exact_mod_cast hb.2)⟩
  · have hb := calculate_storm_risk_bounds wind pressure humidity temp js
    exact ⟨pyround_nonneg 3 hb.1,
      by simpa using pyround_le_intCast (m := 1) 3 (by exact_mod_cast hb.2)⟩
  · have hb := calculate_earthquake_risk_bounds lat lon ff je
    exact ⟨pyround_nonneg 3 hb.1,
      by simpa using pyround_le_intCast (m := 1) 3 (by exact_mod_cast hb.2)⟩
  · norm_num [low_risk_prediction]

/-- The zone fold is the least upper bound of the floor and the matching zone
risks, and is attained. -/
lemma foldl_zone_spec (lat lon : ℚ) (zs : List RiskZone) (init : ℚ) :
    init ≤ zs.foldl
        (fun b z => if inZone z lat lon then max b z.risk else b) init ∧
      (∀ z ∈ zs, inZone z lat lon → z.risk ≤ zs.foldl
        (fun b z => if inZone z lat lon then max b z.risk else b) init) ∧
      (zs.foldl (fun b z => if inZone z lat lon then max b z.risk else b) init
          = init ∨
        ∃ z ∈ zs, inZone z lat lon ∧
          zs.foldl (fun b z => if inZone z lat lon then max b z.risk else b)
            init = z.risk) := by
  induction zs generalizing init with
  | nil => simp
  | cons z zs ih =>
    simp only [List.foldl_cons]
    by_cases hz : inZone z lat lon
    · rw [if_pos hz]
      obtain ⟨ih1, ih2, ih3⟩ := ih (max init z.risk)
      refine ⟨le_trans (le_max_left _ _) ih1, ?_, ?_⟩
      · intro w hw hwz
        rcases List.mem_cons.mp hw with rfl | hw2
        · exact le_trans (le_max_right _ _) ih1
        · exact ih2 w hw2 hwz
      · rcases ih3 with h | ⟨w, hw, hwz, hfe⟩
        · rcases le_total init z.risk with hle | hle
          · exact Or.inr ⟨z, List.mem_cons_self z zs, hz,
              by rw [h, max_eq_right hle]⟩
          · exact Or.inl (by rw [h, max_eq_left hle])
        · exact Or.inr ⟨w, List.mem_cons_of_mem z hw, hwz, hfe⟩
    · rw [if_neg hz]
      obtain ⟨ih1, ih2, ih3⟩ := ih init
      refine ⟨ih1, ?_, ?_⟩
      · intro w hw hwz
        rcases List.mem_cons.mp hw with rfl | hw2
        · exact absurd hwz hz
        · exact ih2 w hw2 hwz
      · rcases ih3 with h | ⟨w, hw, hwz, hfe⟩
        · exact Or.inl h
        · exact Or.inr ⟨w, List.mem_cons_of_mem z hw, hwz, hfe⟩

lemma earthquake_base_risk_of_outside {lat lon : ℚ}
    (h : ∀ z ∈ risk_zones, ¬ inZone z lat lon) :
    earthquake_base_risk lat lon = 0.02 := by
  rcases (foldl_zone_spec lat lon risk_zones 0.02).2.2 with h0 | ⟨z, hz, hzin, _⟩
  · exact h0
  · exact absurd hzin (h z hz)

lemma next_prob_nonneg (t : String) (ps : List Prediction) (fb : ℚ)
    (hfb : 0 ≤ fb) (h : ∀ p ∈ ps, 0 ≤ p.probability) :
    0 ≤ next_prob t ps fb := by
  unfold next_prob
  split
  · next p heq =>
    exact mul_nonneg (h p (List.mem_of_find?_eq_some heq)) (by norm_num)
  · exact hfb

lemma final_round_bounds {s : ℚ} (hs : 0 ≤ s) :
    0 ≤ pyround (min s 10.0) 1 ∧ pyround (min s 10.0) 1 ≤ 10 := by
  constructor
  · exact pyround_nonneg 1 (le_min hs (by norm_num))
  · have h10 : min s 10.0 ≤ ((10 : ℤ) : ℚ) :=
      le_trans (min_le_right _ _) (by norm_num)
    simpa using pyround_le_intCast 1 h10

lemma post_risk_score_bounds (ps : List Prediction) (humidity visibility : ℚ) :
    0 ≤ post_risk_score ps humidity visibility ∧
      post_risk_score ps humidity visibility ≤ 10 := by
  simp only [post_risk_score]
  apply final_round_bounds
  have hb : 0 ≤ (if ps = [] then (1.5 : ℚ) else
      pyround (max ((prob_max ps * 0.6 + prob_avg ps * 0.4) * 10) 1.5) 1) := by
    split
    · norm_num
    · exact pyround_nonneg 1 (le_trans (by norm_num) (le_max_right _ _))
  have h1 : 0 ≤ (if humidity > 90 then (1.0 : ℚ)
      else if humidity > 80 then 0.5 else 0) := by split_ifs <;> norm_num
  have h2 : 0 ≤ (if visibility < 5 then (0.5 : ℚ) else 0) := by
    split_ifs <;> norm_num
  linarith

lemma get_risk_score_bounds (ps : List Prediction)
    (temp humidity visibility : ℚ)
    (hmem : ∀ p ∈ ps, 0 ≤ p.probability ∧ p.probability ≤ 1) :
    0 ≤ get_risk_score ps temp humidity visibility ∧
      get_risk_score ps temp humidity visibility ≤ 10 := by
  simp only [get_risk_score]
  split
  · apply final_round_bounds
    have h1 : 0 ≤ (if visibility < 2 then (1.5 : ℚ)
        else if visibility < 5 then 0.5 else 0) := by split_ifs <;> norm_num
    have h2 : 0 ≤ (if humidity > 90 then (1.0 : ℚ)
        else if humidity > 80 then 0.5 else 0) := by split_ifs <;> norm_num
    have h3 : 0 ≤ (if temp > 40 ∨ temp < 0 then (1.5 : ℚ)
        else if temp > 35 ∨ temp < 5 then 0.5 else 0) := by
      split_ifs <;> norm_num
    linarith
  · constructor
    · exact pyround_nonneg 1 (le_trans (by norm_num) (le_max_right _ _))
    · have hc := combo_bounds ps hmem
      have hle : max ((prob_max ps * 0.6 + prob_avg ps * 0.4) * 10) 1.5
          ≤ ((10 : ℤ) : ℚ) := by
        apply max_le _ (by norm_num)
        push_cast
        nlinarith [hc.2]
      simpa using pyround_le_intCast 1 hle

lemma halfint_add {a b : ℚ} (ha : ∃ k : ℤ, a = k / 2)
    (hb : ∃ k : ℤ, b = k / 2) : ∃ k : ℤ, a + b = k / 2 := by
  obtain ⟨i, rfl⟩ := ha
  obtain ⟨j, rfl⟩ := hb
  exact ⟨i + j, by push_cast; ring⟩

lemma halfint_ite {c : Prop} [Decidable c] {a b : ℚ}
    (ha : ∃ k : ℤ, a = k / 2) (hb : ∃ k : ℤ, b = k / 2) :
    ∃ k : ℤ, (if c then a else b) = k / 2 := by
  split
  · exact ha
  · exact hb

/-- The accumulated rule-based score is always a half-integer, so rounding it
to one decimal leaves it unchanged. -/
lemma simple_risk_score_halfint (temp humidity wind_speed pressure : ℚ) :
    ∃ k : ℤ, simple_risk_score temp humidity wind_speed pressure = (k : ℚ) / 2 := by
  unfold simple_risk_score
  refine halfint_add (halfint_add (halfint_add (halfint_add
    (halfint_add ⟨6, by norm_num⟩ ?_) ?_) ?_) ?_) ?_
  · exact halfint_ite ⟨4, by norm_num⟩
      (halfint_ite ⟨2, by norm_num⟩ ⟨0, by norm_num⟩)
  · exact halfint_ite ⟨4, by norm_num⟩
      (halfint_ite ⟨2, by norm_num⟩ ⟨0, by norm_num⟩)
  · exact halfint_ite ⟨3, by norm_num⟩ ⟨0, by norm_num⟩
  · exact halfint_ite ⟨2, by norm_num⟩ ⟨0, by norm_num⟩
  · exact halfint_ite ⟨3, by norm_num⟩ ⟨0, by norm_num⟩

-- Evaluation of the scorers on the two concrete inputs used below: a quiet
-- reading at the origin, and the same reading moved to the California zone
-- with wildfire jitter -0.1.

lemma quiet_wildfire : calculate_wildfire_risk 20 50 0 0 3 0 = 2 / 25 := by
  norm_num [calculate_wildfire_risk, min_def, max_def]

lemma quiet_flood : calculate_flood_risk 50 1020 20 0 3 0 = 36 / 625 := by
  norm_num [calculate_flood_risk, min_def, max_def]

lemma quiet_storm : calculate_storm_risk 0 1020 50 20 0 = 0 := by
  norm_num [calculate_storm_risk, min_def, max_def]

lemma quiet_earthquake : calculate_earthquake_risk 0 0 1 0 = 1 / 50 := by
  norm_num [calculate_earthquake_risk, earthquake_base_risk, risk_zones,
    inZone, List.foldl, min_def, max_def]

lemma quiet_predictions :
    enhanced_disaster_prediction 20 50 0 1020 0 0 3 0 0 0 1 0 =
      [low_risk_prediction] := by
  simp only [enhanced_disaster_prediction]
  rw [quiet_wildfire, quiet_flood, quiet_storm, quiet_earthquake]
  norm_num

lemma ca_wildfire : calculate_wildfire_risk 20 50 0 36 3 (-0.1) = 17 / 350 := by
  have h36 : |(36 : ℚ)| = 36 := abs_of_nonneg (by norm_num)
  norm_num [calculate_wildfire_risk, h36, min_def, max_def]

lemma ca_flood : calculate_flood_risk 50 1020 20 36 3 0 = 36 / 625 := by
  have h36 : |(36 : ℚ)| = 36 := abs_of_nonneg (by norm_num)
  norm_num [calculate_flood_risk, h36, min_def, max_def]

lemma ca_earthquake : calculate_earthquake_risk 36 (-118) 1 0 = 2 / 5 := by
  norm_num [calculate_earthquake_risk, earthquake_base_risk, risk_zones,
    inZone, List.foldl, min_def, max_def]

lemma ca_predictions :
    enhanced_disaster_prediction 20 50 0 1020 36 (-118) 3 (-0.1) 0 0 1 0 =
      [earthquake_prediction (2 / 5)] := by
  simp only [enhanced_disaster_prediction]
  rw [ca_wildfire, ca_flood, quiet_storm, ca_earthquake]
  norm_num

lemma ca_find_earthquake :
    (enhanced_disaster_prediction 20 50 0 1020 36 (-118) 3 (-0.1) 0 0 1 0).find?
      (fun p => p.type == "earthquake") = some (earthquake_prediction (2 / 5)) := by
  rw [ca_predictions]
  simp [List.find?, earthquake_prediction]

lemma ca_find_flood :
    (enhanced_disaster_prediction 20 50 0 1020 36 (-118) 3 (-0.1) 0 0 1 0).find?
      (fun p => p.type == "flood") = none := by
  rw [ca_predictions]
  simp [List.find?, earthquake_prediction]

-- ## Claim theorems

/-- C3: the severity label is critical for p at least 0.7, high for at least
0.5, moderate for at least 0.3, low for at least 0.1, else minimal, with exact
boundary behaviour; the label is monotone non-decreasing in the probability;
and the same mapping function is attached to all four hazard entries. -/
theorem severity_level_spec :
    (∀ p : ℚ,
      (get_severity_level p = "critical" ↔ 0.7 ≤ p) ∧
      (get_severity_level p = "high" ↔ 0.5 ≤ p ∧ p < 0.7) ∧
      (get_severity_level p = "moderate" ↔ 0.3 ≤ p ∧ p < 0.5) ∧
      (get_severity_level p = "low" ↔ 0.1 ≤ p ∧ p < 0.3) ∧
      (get_severity_level p = "minimal" ↔ p < 0.1)) ∧
    (∀ p q : ℚ, p ≤ q →
      severity_rank (get_severity_level p) ≤
        severity_rank (get_severity_level q)) ∧
    get_severity_level 0.5 = "high" ∧
    get_severity_level 0.4999 = "moderate" ∧
    (∀ r temp humidity wind pressure : ℚ,
      (wildfire_prediction r temp humidity wind).severity =
          get_severity_level r ∧
        (flood_prediction r humidity pressure temp).severity =
          get_severity_level r ∧
        (storm_prediction r wind pressure humidity).severity =
          get_severity_level r ∧
        (earthquake_prediction r).severity = get_severity_level r) := by
  refine ⟨?_, ?_, ?_, ?_, ?_⟩
  · intro p
    unfold get_severity_level
    split_ifs with h1 h2 h3 h4 <;>
      refine ⟨?_, ?_, ?_, ?_, ?_⟩ <;>
      simp_all <;>
      first
        | linarith
        | (intros; linarith)
  · intro p q hpq
    unfold get_severity_level
    split_ifs <;> simp [severity_rank] <;> linarith
  · norm_num [get_severity_level]
  · norm_num [get_severity_level]
  · intro r temp humidity wind pressure
    exact ⟨rfl, rfl, rfl, rfl⟩

/-- Witness for C3: monotonicity applied at the concrete pair 0.2 and 0.55. -/
theorem severity_level_spec_witness :
    severity_rank (get_severity_level 0.2) ≤
      severity_rank (get_severity_level 0.55) :=
  severity_level_spec.2.1 0.2 0.55 (by norm_num)

/-- C7: the earthquake base risk is the 0.02 global floor raised to the risk
of every zone rectangle containing the coordinate (an upper bound of the
matching risks and the floor, and attained by one of them); in particular it
is at least 0.4 at lat 36, lon -118 inside the California zone, and exactly
0.02 at the origin, outside every zone. -/
theorem earthquake_base_risk_spec :
    (∀ lat lon : ℚ, 0.02 ≤ earthquake_base_risk lat lon) ∧
    (∀ lat lon : ℚ, ∀ z ∈ risk_zones, inZone z lat lon →
      z.risk ≤ earthquake_base_risk lat lon) ∧
    (∀ lat lon : ℚ, earthquake_base_risk lat lon = 0.02 ∨
      ∃ z ∈ risk_zones, inZone z lat lon ∧
        earthquake_base_risk lat lon = z.risk) ∧
    0.4 ≤ earthquake_base_risk 36 (-118) ∧
    earthquake_base_risk 0 0 = 0.02 := by
  refine ⟨?_, ?_, ?_, ?_, ?_⟩
  · intro lat lon
    exact (foldl_zone_spec lat lon risk_zones 0.02).1
  · intro lat lon
    exact (foldl_zone_spec lat lon risk_zones 0.02).2.1
  · intro lat lon
    exact (foldl_zone_spec lat lon risk_zones 0.02).2.2
  · have hmem : (⟨32, 42, -125, -114, 0.4⟩ : RiskZone) ∈ risk_zones := by
      unfold risk_zones
      exact List.mem_cons_self _ _
    have h := (foldl_zone_spec 36 (-118) risk_zones 0.02).2.1
      ⟨32, 42, -125, -114, 0.4⟩ hmem (by norm_num [inZone])
    exact h
  · apply earthquake_base_risk_of_outside
    intro z hz
    simp only [risk_zones, List.mem_cons, List.not_mem_nil, or_false] at hz
    rcases hz with rfl | rfl | rfl | rfl <;> norm_num [inZone]

/-- Witness for C7: the zone upper bound applied to the Turkey/Greece zone at
lat 37, lon 30. -/
theorem earthquake_base_risk_spec_witness :
    (0.25 : ℚ) ≤ earthquake_base_risk 37 30 := by
  have hmem : (⟨36, 42, 25, 35, 0.25⟩ : RiskZone) ∈ risk_zones := by
    unfold risk_zones
    simp
  exact earthquake_base_risk_spec.2.1 37 30 ⟨36, 42, 25, 35, 0.25⟩ hmem
    (by norm_num [inZone])

/-- C8: the confidence estimator returns high when the maximum probability is
at least 0.6, medium when at least 0.3, low otherwise and on the empty list,
while both aggregate endpoints answer the fixed numeric constant 0.85. -/
theorem confidence_spec :
    (∀ ps : List Prediction, ps ≠ [] →
      calculate_overall_confidence ps =
        (if prob_max ps ≥ 0.6 then "high"
          else if prob_max ps ≥ 0.3 then "medium" else "low")) ∧
    calculate_overall_confidence [] = "low" ∧
    (∀ (temp humidity wind pressure lat lon visibility : ℚ) (month : ℕ)
        (jw jf js ff je : ℚ),
      (predict_disaster_from_location temp humidity wind pressure lat lon
        visibility month jw jf js ff je).confidence = 0.85) ∧
    (∀ (temp humidity wind pressure lat lon visibility : ℚ) (month : ℕ)
        (jw jf js ff je r : ℚ),
      (get_disaster_risk temp humidity wind pressure lat lon visibility month
        jw jf js ff je r).confidence = 0.85) := by
  refine ⟨?_, rfl, ?_, ?_⟩
  · intro ps h
    simp [calculate_overall_confidence, h]
  · intros
    rfl
  · intros
    rfl

/-- Witness for C8: the estimator applied to the singleton low-risk list. -/
theorem confidence_spec_witness :
    calculate_overall_confidence [low_risk_prediction] = "low" := by
  have h := confidence_spec.1 [low_risk_prediction] (by simp)
  rw [h]
  norm_num [prob_max, list_max, low_risk_prediction]

/-- C5: both hazard-scorer aggregation paths derive the returned category
from the final risk score with the 7/5/3 thresholds, and the rule-based
calculate_risk derives its category from its returned risk score with the
8/6/4 thresholds. -/
theorem overall_risk_category_spec :
    (∀ (temp humidity wind pressure lat lon visibility : ℚ) (month : ℕ)
        (jw jf js ff je : ℚ),
      (predict_disaster_from_location temp humidity wind pressure lat lon
          visibility month jw jf js ff je).overall_risk =
        enhanced_category (predict_disaster_from_location temp humidity wind
          pressure lat lon visibility month jw jf js ff je).risk_score) ∧
    (∀ (temp humidity wind pressure lat lon visibility : ℚ) (month : ℕ)
        (jw jf js ff je r : ℚ),
      (get_disaster_risk temp humidity wind pressure lat lon visibility month
          jw jf js ff je r).overall_risk =
        enhanced_category (get_disaster_risk temp humidity wind pressure lat
          lon visibility month jw jf js ff je r).risk_score) ∧
    (∀ temp humidity wind_speed pressure r : ℚ,
      (calculate_risk temp humidity wind_speed pressure r).overall_risk =
        simple_category
          (calculate_risk temp humidity wind_speed pressure r).risk_score) := by
  refine ⟨?_, ?_, ?_⟩
  · intros
    rfl
  · intros
    rfl
  · intro temp humidity wind_speed pressure r
    obtain ⟨k, hk⟩ := simple_risk_score_halfint temp humidity wind_speed pressure
    have hround : pyround (simple_risk_score temp humidity wind_speed pressure)
        1 = simple_risk_score temp humidity wind_speed pressure := by
      rw [hk]
      exact pyround_half k
    show (if simple_risk_score temp humidity wind_speed pressure ≥ 8 then
        "critical"
      else if simple_risk_score temp humidity wind_speed pressure ≥ 6 then
        "high"
      else if simple_risk_score temp humidity wind_speed pressure ≥ 4 then
        "moderate"
      else "low") =
      simple_category (min (pyround
        (simple_risk_score temp humidity wind_speed pressure) 1) 10)
    rw [hround]
    unfold simple_category
    simp only [ge_iff_le, le_min_iff]
    norm_num

/-- C1: a hazard appears in the assembled list exactly when its computed risk
exceeds its inclusion threshold (wildfire and flood 0.1, storm 0.15,
earthquake 0.05), and when none qualifies the output is exactly the one
synthetic low-risk entry with its literal field values. -/
theorem enhanced_prediction_threshold_spec
    (temp humidity wind pressure lat lon : ℚ) (month : ℕ)
    (jw jf js ff je : ℚ) :
    ("wildfire" ∈ (enhanced_disaster_prediction temp humidity wind pressure
        lat lon month jw jf js ff je).map Prediction.type ↔
      calculate_wildfire_risk temp humidity wind lat month jw > 0.1) ∧
    ("flood" ∈ (enhanced_disaster_prediction temp humidity wind pressure
        lat lon month jw jf js ff je).map Prediction.type ↔
      calculate_flood_risk humidity pressure temp lat month jf > 0.1) ∧
    ("severe_weather" ∈ (enhanced_disaster_prediction temp humidity wind
        pressure lat lon month jw jf js ff je).map Prediction.type ↔
      calculate_storm_risk wind pressure humidity temp js > 0.15) ∧
    ("earthquake" ∈ (enhanced_disaster_prediction temp humidity wind pressure
        lat lon month jw jf js ff je).map Prediction.type ↔
      calculate_earthquake_risk lat lon ff je > 0.05) ∧
    (¬ calculate_wildfire_risk temp humidity wind lat month jw > 0.1 →
      ¬ calculate_flood_risk humidity pressure temp lat month jf > 0.1 →
      ¬ calculate_storm_risk wind pressure humidity temp js > 0.15 →
      ¬ calculate_earthquake_risk lat lon ff je > 0.05 →
      enhanced_disaster_prediction temp humidity wind pressure lat lon month
          jw jf js ff je =
        [{ type := "low_risk", probability := 0.05, severity := "minimal",
           time_window := "current", factors := ["stable_conditions"],
           recommended_actions := ["maintain_normal_vigilance",
             "monitor_weather_updates"] }]) := by
  refine ⟨?_, ?_, ?_, ?_, ?_⟩
  · constructor
    · intro h
      obtain ⟨p, hp, ht⟩ := List.mem_map.mp h
      rw [mem_enhanced_iff] at hp
      rcases hp with ⟨hc, rfl⟩ | ⟨hc, rfl⟩ | ⟨hc, rfl⟩ | ⟨hc, rfl⟩ |
        ⟨h1, h2, h3, h4, rfl⟩
      · exact hc
      · simp [flood_prediction] at ht
      · simp [storm_prediction] at ht
      · simp [earthquake_prediction] at ht
      · simp [low_risk_prediction] at ht
    · intro hc
      exact List.mem_map.mpr ⟨wildfire_prediction _ temp humidity wind,
        mem_enhanced_iff.mpr (Or.inl ⟨hc, rfl⟩), rfl⟩
  · constructor
    · intro h
      obtain ⟨p, hp, ht⟩ := List.mem_map.mp h
      rw [mem_enhanced_iff] at hp
      rcases hp with ⟨hc, rfl⟩ | ⟨hc, rfl⟩ | ⟨hc, rfl⟩ | ⟨hc, rfl⟩ |
        ⟨h1, h2, h3, h4, rfl⟩
      · simp [wildfire_prediction] at ht
      · exact hc
      · simp [storm_prediction] at ht
      · simp [earthquake_prediction] at ht
      · simp [low_risk_prediction] at ht
    · intro hc
      exact List.mem_map.mpr ⟨flood_prediction _ humidity pressure temp,
        mem_enhanced_iff.mpr (Or.inr (Or.inl ⟨hc, rfl⟩)), rfl⟩
  · constructor
    · intro h
      obtain ⟨p, hp, ht⟩ := List.mem_map.mp h
      rw [mem_enhanced_iff] at hp
      rcases hp with ⟨hc, rfl⟩ | ⟨hc, rfl⟩ | ⟨hc, rfl⟩ | ⟨hc, rfl⟩ |
        ⟨h1, h2, h3, h4, rfl⟩
      · simp [wildfire_prediction] at ht
      · simp [flood_prediction] at ht
      · exact hc
      · simp [earthquake_prediction] at ht
      · simp [low_risk_prediction] at ht
    · intro hc
      exact List.mem_map.mpr ⟨storm_prediction _ wind pressure humidity,
        mem_enhanced_iff.mpr (Or.inr (Or.inr (Or.inl ⟨hc, rfl⟩))), rfl⟩
  · constructor
    · intro h
      obtain ⟨p, hp, ht⟩ := List.mem_map.mp h
      rw [mem_enhanced_iff] at hp
      rcases hp with ⟨hc, rfl⟩ | ⟨hc, rfl⟩ | ⟨hc, rfl⟩ | ⟨hc, rfl⟩ |
        ⟨h1, h2, h3, h4, rfl⟩
      · simp [wildfire_prediction] at ht
      · simp [flood_prediction] at ht
      · simp [storm_prediction] at ht
      · exact hc
      · simp [low_risk_prediction] at ht
    · intro hc
      exact List.mem_map.mpr ⟨earthquake_prediction _,
        mem_enhanced_iff.mpr (Or.inr (Or.inr (Or.inr (Or.inl ⟨hc, rfl⟩)))),
        rfl⟩
  · intro h1 h2 h3 h4
    simp [enhanced_disaster_prediction, h1, h2, h3, h4, low_risk_prediction]

/-- Witness for C1: on a quiet reading at the origin no hazard clears its
threshold and the output is exactly the synthetic low-risk entry. -/
theorem enhanced_prediction_threshold_witness :
    enhanced_disaster_prediction 20 50 0 1020 0 0 3 0 0 0 1 0 =
      [{ type := "low_risk", probability := 0.05, severity := "minimal",
         time_window := "current", factors := ["stable_conditions"],
         recommended_actions := ["maintain_normal_vigilance",
           "monitor_weather_updates"] }] := by
  apply (enhanced_prediction_threshold_spec 20 50 0 1020 0 0 3 0 0 0 1 0).2.2.2.2
  · rw [quiet_wildfire]
    norm_num
  · rw [quiet_flood]
    norm_num
  · rw [quiet_storm]
    norm_num
  · rw [quiet_earthquake]
    norm_num

/-- C9: the assembler always returns at least one entry, so in both aggregate
endpoints the empty-predictions branch is dead: the GET score is always the
max/avg formula (never the visibility/humidity/temperature ladder) and the
POST score is always the max/avg formula plus its modifiers. -/
theorem predictions_nonempty_spec
    (temp humidity wind pressure lat lon visibility : ℚ) (month : ℕ)
    (jw jf js ff je r : ℚ) :
    enhanced_disaster_prediction temp humidity wind pressure lat lon month
        jw jf js ff je ≠ [] ∧
    (get_disaster_risk temp humidity wind pressure lat lon visibility month
        jw jf js ff je r).risk_score =
      pyround (max ((prob_max (enhanced_disaster_prediction temp humidity wind
          pressure lat lon month jw jf js ff je) * 0.6 +
        prob_avg (enhanced_disaster_prediction temp humidity wind pressure lat
          lon month jw jf js ff je) * 0.4) * 10) 1.5) 1 ∧
    (predict_disaster_from_location temp humidity wind pressure lat lon
        visibility month jw jf js ff je).risk_score =
      pyround (min (pyround (max ((prob_max (enhanced_disaster_prediction temp
            humidity wind pressure lat lon month jw jf js ff je) * 0.6 +
          prob_avg (enhanced_disaster_prediction temp humidity wind pressure
            lat lon month jw jf js ff je) * 0.4) * 10) 1.5) 1
        + (if humidity > 90 then 1.0 else if humidity > 80 then 0.5 else 0)
        + (if visibility < 5 then 0.5 else 0)) 10.0) 1 := by
  have hne := enhanced_ne_nil temp humidity wind pressure lat lon month
    jw jf js ff je
  refine ⟨hne, ?_, ?_⟩
  · have e : (get_disaster_risk temp humidity wind pressure lat lon visibility
        month jw jf js ff je r).risk_score =
        get_risk_score (enhanced_disaster_prediction temp humidity wind
          pressure lat lon month jw jf js ff je) temp humidity visibility :=
      rfl
    rw [e]
    simp only [get_risk_score]
    rw [if_neg hne]
  · have e : (predict_disaster_from_location temp humidity wind pressure lat
        lon visibility month jw jf js ff je).risk_score =
        post_risk_score (enhanced_disaster_prediction temp humidity wind
          pressure lat lon month jw jf js ff je) humidity visibility := rfl
    rw [e]
    simp only [post_risk_score]
    rw [if_neg hne]

/-- Witness for C9: nonemptiness at a concrete quiet reading. -/
theorem predictions_nonempty_spec_witness :
    enhanced_disaster_prediction 25 60 10 1013 0 0 7 0 0 0 1 0 ≠ [] :=
  (predictions_nonempty_spec 25 60 10 1013 0 0 10 7 0 0 0 1 0 2).1

/-- Counterexample for C2: at a quiet reading the code returns risk score 1.5,
while the formula of the claim read literally, round(max(1.5, combo) * 10, 1)
with the factor 10 outside the max, yields 10 on the same input. -/
theorem post_risk_score_claim_counterexample :
    (predict_disaster_from_location 20 50 0 1020 0 0 10 3 0 0 0 1
        0).risk_score = 1.5 ∧
    claim_c2_risk_score
        (enhanced_disaster_prediction 20 50 0 1020 0 0 3 0 0 0 1 0) 50 10 =
      10 ∧
    (1.5 : ℚ) ≠ 10 := by
  refine ⟨?_, ?_, by norm_num⟩
  · have e : (predict_disaster_from_location 20 50 0 1020 0 0 10 3 0 0 0 1
        0).risk_score =
        post_risk_score
          (enhanced_disaster_prediction 20 50 0 1020 0 0 3 0 0 0 1 0) 50 10 :=
      rfl
    rw [e, quiet_predictions]
    norm_num [post_risk_score, prob_max, prob_avg, list_max,
      low_risk_prediction, pyround, roundHalfEven, min_def, max_def]
  · rw [quiet_predictions]
    norm_num [claim_c2_risk_score, prob_max, prob_avg, list_max,
      low_risk_prediction, pyround, roundHalfEven, min_def, max_def]

/-- C2 as amended: the multiplication by 10 sits inside the max, matching the
code: for a nonempty predictions list the score is
round(min(round(max((max_prob*0.6 + avg_prob*0.4) * 10, 1.5), 1) + humidity
modifier + visibility modifier, 10), 1); for an empty list the pre-modifier
base is 1.5; and the POST endpoint computes exactly this aggregation over the
assembled predictions. -/
theorem post_risk_score_spec :
    (∀ (ps : List Prediction) (humidity visibility : ℚ), ps ≠ [] →
      post_risk_score ps humidity visibility =
        pyround (min (pyround (max ((prob_max ps * 0.6 + prob_avg ps * 0.4)
              * 10) 1.5) 1
          + (if humidity > 90 then 1.0 else if humidity > 80 then 0.5 else 0)
          + (if visibility < 5 then 0.5 else 0)) 10.0) 1) ∧
    (∀ (ps : List Prediction) (humidity visibility : ℚ), ps = [] →
      post_risk_score ps humidity visibility =
        pyround (min ((1.5 : ℚ)
          + (if humidity > 90 then 1.0 else if humidity > 80 then 0.5 else 0)
          + (if visibility < 5 then 0.5 else 0)) 10.0) 1) ∧
    (∀ (temp humidity wind pressure lat lon visibility : ℚ) (month : ℕ)
        (jw jf js ff je : ℚ),
      (predict_disaster_from_location temp humidity wind pressure lat lon
          visibility month jw jf js ff je).risk_score =
        post_risk_score (enhanced_disaster_prediction temp humidity wind
          pressure lat lon month jw jf js ff je) humidity visibility) := by
  refine ⟨?_, ?_, ?_⟩
  · intro ps humidity visibility h
    simp only [post_risk_score]
    rw [if_neg h]
  · intro ps humidity visibility h
    simp only [post_risk_score]
    rw [if_pos h]
  · intros
    rfl

/-- Witness for C2: the amended aggregation evaluated on the empty list with
humidity 95 and on a singleton list with humidity 60. -/
theorem post_risk_score_spec_witness :
    post_risk_score [] 95 10 = 2.5 ∧
      post_risk_score [low_risk_prediction] 60 10 = 1.5 := by
  constructor
  · have h := post_risk_score_spec.2.1 [] 95 10 rfl
    rw [h]
    norm_num [pyround, roundHalfEven, min_def]
  · have h := post_risk_score_spec.1 [low_risk_prediction] 60 10 (by simp)
    rw [h]
    norm_num [prob_max, prob_avg, list_max, low_risk_prediction, pyround,
      roundHalfEven, min_def, max_def]

/-- C4: every hazard scorer stays inside [0, 1] for all real-valued inputs
and all jitter values, and every display risk score of both aggregate
responses stays inside [0, 10], with the GET earthquake display drawn from
its documented [1, 3] range. -/
theorem risk_bounds_spec (temp humidity wind pressure lat lon visibility : ℚ)
    (month : ℕ) (jw jf js ff je r : ℚ) (hr1 : 1 ≤ r) (hr3 : r ≤ 3) :
    (0 ≤ calculate_wildfire_risk temp humidity wind lat month jw ∧
      calculate_wildfire_risk temp humidity wind lat month jw ≤ 1) ∧
    (0 ≤ calculate_flood_risk humidity pressure temp lat month jf ∧
      calculate_flood_risk humidity pressure temp lat month jf ≤ 1) ∧
    (0 ≤ calculate_storm_risk wind pressure humidity temp js ∧
      calculate_storm_risk wind pressure humidity temp js ≤ 1) ∧
    (0 ≤ calculate_earthquake_risk lat lon ff je ∧
      calculate_earthquake_risk lat lon ff je ≤ 1) ∧
    (let P := predict_disaster_from_location temp humidity wind pressure lat
        lon visibility month jw jf js ff je
     let G := get_disaster_risk temp humidity wind pressure lat lon visibility
        month jw jf js ff je r
     (0 ≤ P.risk_score ∧ P.risk_score ≤ 10) ∧
     (0 ≤ P.flood_risk ∧ P.flood_risk ≤ 10) ∧
     (0 ≤ P.fire_risk ∧ P.fire_risk ≤ 10) ∧
     (0 ≤ P.earthquake_risk ∧ P.earthquake_risk ≤ 10) ∧
     (0 ≤ P.storm_risk ∧ P.storm_risk ≤ 10) ∧
     (0 ≤ G.risk_score ∧ G.risk_score ≤ 10) ∧
     (0 ≤ G.flood_risk ∧ G.flood_risk ≤ 10) ∧
     (0 ≤ G.fire_risk ∧ G.fire_risk ≤ 10) ∧
     (0 ≤ G.storm_risk ∧ G.storm_risk ≤ 10) ∧
     (0 ≤ G.earthquake_risk ∧ G.earthquake_risk ≤ 10)) := by
  refine ⟨calculate_wildfire_risk_bounds _ _ _ _ _ _,
    calculate_flood_risk_bounds _ _ _ _ _ _,
    calculate_storm_risk_bounds _ _ _ _ _,
    calculate_earthquake_risk_bounds _ _ _ _, ?_⟩
  intro P G
  have hmem := @enhanced_probability_bounds temp humidity wind pressure lat
    lon month jw jf js ff je
  have hE1 : ∀ p ∈ enhanced_disaster_prediction temp humidity wind pressure
      lat lon month jw jf js ff je, 0 ≤ p.probability :=
    fun p hp => (hmem p hp).1
  have hflood : 0 ≤ next_prob "flood" (enhanced_disaster_prediction temp
      humidity wind pressure lat lon month jw jf js ff je)
      (max 1.5 (humidity / 40)) :=
    next_prob_nonneg _ _ _ (le_trans (by norm_num) (le_max_left _ _)) hE1
  have hfire : 0 ≤ next_prob "wildfire" (enhanced_disaster_prediction temp
      humidity wind pressure lat lon month jw jf js ff je)
      (max 1.0 ((100 - humidity) / 40)) :=
    next_prob_nonneg _ _ _ (le_trans (by norm_num) (le_max_left _ _)) hE1
  have heq : 0 ≤ next_prob "earthquake" (enhanced_disaster_prediction temp
      humidity wind pressure lat lon month jw jf js ff je) 2.5 :=
    next_prob_nonneg _ _ _ (by norm_num) hE1
  have hstorm : 0 ≤ next_prob "severe_weather" (enhanced_disaster_prediction
      temp humidity wind pressure lat lon month jw jf js ff je)
      (max 1.5 (wind / 10)) :=
    next_prob_nonneg _ _ _ (le_trans (by norm_num) (le_max_left _ _)) hE1
  refine ⟨post_risk_score_bounds _ _ _,
    ⟨le_min (pyround_nonneg 1 hflood) (by norm_num),
      le_trans (min_le_right _ _) (by norm_num)⟩,
    ⟨le_min (pyround_nonneg 1 hfire) (by norm_num),
      le_trans (min_le_right _ _) (by norm_num)⟩,
    ⟨le_min (pyround_nonneg 1 heq) (by norm_num),
      le_trans (min_le_right _ _) (by norm_num)⟩,
    ⟨le_min (pyround_nonneg 1 hstorm) (by norm_num),
      le_trans (min_le_right _ _) (by norm_num)⟩,
    get_risk_score_bounds _ _ _ _ hmem,
    ⟨le_min (pyround_nonneg 1 hflood) (by norm_num),
      le_trans (min_le_right _ _) (by norm_num)⟩,
    ⟨le_min (pyround_nonneg 1 hfire) (by norm_num),
      le_trans (min_le_right _ _) (by norm_num)⟩,
    ⟨le_min (pyround_nonneg 1 hstorm) (by norm_num),
      le_trans (min_le_right _ _) (by norm_num)⟩,
    ?_, ?_⟩
  · exact pyround_nonneg 1 (by linarith)
  · have h := pyround_le_intCast (m := 3) 1 (by exact_mod_cast hr3)
    exact le_trans h (by norm_num)

/-- Witness for C4: the GET earthquake display bounds at a concrete reading
with the draw r = 2. -/
theorem risk_bounds_spec_witness :
    0 ≤ (get_disaster_risk 25 60 10 1013 0 0 10 3 0 0 0 1 0
        2).earthquake_risk ∧
      (get_disaster_risk 25 60 10 1013 0 0 10 3 0 0 0 1 0 2).earthquake_risk
        ≤ 10 := by
  have h := risk_bounds_spec 25 60 10 1013 0 0 10 3 0 0 0 1 0 2 (by norm_num)
    (by norm_num)
  exact (h.2.2.2.2).2.2.2.2.2.2.2.2.2

/-- Counterexample for C6: at a California coordinate an earthquake
prediction with probability 0.4 is present, the claim then requires the GET
earthquake display to be 0.4 * 10 = 4, but the endpoint returns the rounded
random draw, here 1. -/
theorem get_earthquake_display_counterexample :
    (enhanced_disaster_prediction 20 50 0 1020 36 (-118) 3 (-0.1) 0 0 1
        0).find? (fun p => p.type == "earthquake") =
      some (earthquake_prediction (2 / 5)) ∧
    (earthquake_prediction (2 / 5)).probability * 10 = 4 ∧
    (get_disaster_risk 20 50 0 1020 36 (-118) 10 3 (-0.1) 0 0 1 0
        1).earthquake_risk = 1 ∧
    (1 : ℚ) ≠ 4 := by
  refine ⟨ca_find_earthquake, ?_, ?_, by norm_num⟩
  · norm_num [earthquake_prediction, pyround, roundHalfEven]
  · have e : (get_disaster_risk 20 50 0 1020 36 (-118) 10 3 (-0.1) 0 0 1 0
        1).earthquake_risk = pyround 1 1 := rfl
    rw [e]
    norm_num [pyround, roundHalfEven]

/-- C6 as amended: flood, fire and storm displays equal the matching
prediction probability times 10 when present and the documented fallback
otherwise, in both endpoints, clamped to 10 and rounded to 1 decimal; the
POST earthquake display uses probability times 10 when present and the
constant 2.5 otherwise; the GET earthquake display is always the rounded
fresh uniform draw from [1, 3], which keeps it at most 10. -/
theorem display_scores_spec
    (temp humidity wind pressure lat lon visibility : ℚ) (month : ℕ)
    (jw jf js ff je r : ℚ) :
    (let E := enhanced_disaster_prediction temp humidity wind pressure lat lon
      month jw jf js ff je
    let P := predict_disaster_from_location temp humidity wind pressure lat
      lon visibility month jw jf js ff je
    let G := get_disaster_risk temp humidity wind pressure lat lon visibility
      month jw jf js ff je r
    (∀ q, E.find? (fun p => p.type == "flood") = some q →
      P.flood_risk = min (pyround (q.probability * 10) 1) 10.0 ∧
      G.flood_risk = min (pyround (q.probability * 10) 1) 10.0) ∧
    (E.find? (fun p => p.type == "flood") = none →
      P.flood_risk = min (pyround (max 1.5 (humidity / 40)) 1) 10.0 ∧
      G.flood_risk = min (pyround (max 1.5 (humidity / 40)) 1) 10.0) ∧
    (∀ q, E.find? (fun p => p.type == "wildfire") = some q →
      P.fire_risk = min (pyround (q.probability * 10) 1) 10.0 ∧
      G.fire_risk = min (pyround (q.probability * 10) 1) 10.0) ∧
    (E.find? (fun p => p.type == "wildfire") = none →
      P.fire_risk = min (pyround (max 1.0 ((100 - humidity) / 40)) 1) 10.0 ∧
      G.fire_risk = min (pyround (max 1.0 ((100 - humidity) / 40)) 1) 10.0) ∧
    (∀ q, E.find? (fun p => p.type == "severe_weather") = some q →
      P.storm_risk = min (pyround (q.probability * 10) 1) 10.0 ∧
      G.storm_risk = min (pyround (q.probability * 10) 1) 10.0) ∧
    (E.find? (fun p => p.type == "severe_weather") = none →
      P.storm_risk = min (pyround (max 1.5 (wind / 10)) 1) 10.0 ∧
      G.storm_risk = min (pyround (max 1.5 (wind / 10)) 1) 10.0) ∧
    (∀ q, E.find? (fun p => p.type == "earthquake") = some q →
      P.earthquake_risk = min (pyround (q.probability * 10) 1) 10.0) ∧
    (E.find? (fun p => p.type == "earthquake") = none →
      P.earthquake_risk = 2.5) ∧
    G.earthquake_risk = pyround r 1 ∧
    (1 ≤ r → r ≤ 3 → G.earthquake_risk ≤ 10)) := by
  intro E P G
  refine ⟨?_, ?_, ?_, ?_, ?_, ?_, ?_, ?_, rfl, ?_⟩
  · intro q hq
    have hv : next_prob "flood" E (max 1.5 (humidity / 40)) =
        q.probability * 10 := by
      unfold next_prob
      rw [hq]
    exact ⟨by rw [show P.flood_risk = min (pyround (next_prob "flood" E
        (max 1.5 (humidity / 40))) 1) 10.0 from rfl, hv],
      by rw [show G.flood_risk = min (pyround (next_prob "flood" E
        (max 1.5 (humidity / 40))) 1) 10.0 from rfl, hv]⟩
  · intro hq
    have hv : next_prob "flood" E (max 1.5 (humidity / 40)) =
        max 1.5 (humidity / 40) := by
      unfold next_prob
      rw [hq]
    exact ⟨by rw [show P.flood_risk = min (pyround (next_prob "flood" E
        (max 1.5 (humidity / 40))) 1) 10.0 from rfl, hv],
      by rw [show G.flood_risk = min (pyround (next_prob "flood" E
        (max 1.5 (humidity / 40))) 1) 10.0 from rfl, hv]⟩
  · intro q hq
    have hv : next_prob "wildfire" E (max 1.0 ((100 - humidity) / 40)) =
        q.probability * 10 := by
      unfold next_prob
      rw [hq]
    exact ⟨by rw [show P.fire_risk = min (pyround (next_prob "wildfire" E
        (max 1.0 ((100 - humidity) / 40))) 1) 10.0 from rfl, hv],
      by rw [show G.fire_risk = min (pyround (next_prob "wildfire" E
        (max 1.0 ((100 - humidity) / 40))) 1) 10.0 from rfl, hv]⟩
  · intro hq
    have hv : next_prob "wildfire" E (max 1.0 ((100 - humidity) / 40)) =
        max 1.0 ((100 - humidity) / 40) := by
      unfold next_prob
      rw [hq]
    exact ⟨by rw [show P.fire_risk = min (pyround (next_prob "wildfire" E
        (max 1.0 ((100 - humidity) / 40))) 1) 10.0 from rfl, hv],
      by rw [show G.fire_risk = min (pyround (next_prob "wildfire" E
        (max 1.0 ((100 - humidity) / 40))) 1) 10.0 from rfl, hv]⟩
  · intro q hq
    have hv : next_prob "severe_weather" E (max 1.5 (wind / 10)) =
        q.probability * 10 := by
      unfold next_prob
      rw [hq]
    exact ⟨by rw [show P.storm_risk = min (pyround (next_prob "severe_weather"
        E (max 1.5 (wind / 10))) 1) 10.0 from rfl, hv],
      by rw [show G.storm_risk = min (pyround (next_prob "severe_weather" E
        (max 1.5 (wind / 10))) 1) 10.0 from rfl, hv]⟩
  · intro hq
    have hv : next_prob "severe_weather" E (max 1.5 (wind / 10)) =
        max 1.5 (wind / 10) := by
      unfold next_prob
      rw [hq]
    exact ⟨by rw [show P.storm_risk = min (pyround (next_prob "severe_weather"
        E (max 1.5 (wind / 10))) 1) 10.0 from rfl, hv],
      by rw [show G.storm_risk = min (pyround (next_prob "severe_weather" E
        (max 1.5 (wind / 10))) 1) 10.0 from rfl, hv]⟩
  · intro q hq
    have hv : next_prob "earthquake" E 2.5 = q.probability * 10 := by
      unfold next_prob
      rw [hq]
    rw [show P.earthquake_risk = min (pyround (next_prob "earthquake" E 2.5)
      1) 10.0 from rfl, hv]
  · intro hq
    have hv : next_prob "earthquake" E 2.5 = 2.5 := by
      unfold next_prob
      rw [hq]
    rw [show P.earthquake_risk = min (pyround (next_prob "earthquake" E 2.5)
      1) 10.0 from rfl, hv]
    norm_num [pyround, roundHalfEven, min_def]
  · intro h1 h2
    rw [show G.earthquake_risk = pyround r 1 from rfl]
    have h := pyround_le_intCast (m := 3) 1 (by exact_mod_cast h2)
    exact le_trans h (by norm_num)

/-- Witness for C6: the fallback flood display and the present-earthquake
display at the California reading. -/
theorem display_scores_spec_witness :
    (predict_disaster_from_location 20 50 0 1020 36 (-118) 10 3 (-0.1) 0 0 1
        0).flood_risk = min (pyround (max 1.5 (50 / 40)) 1) 10.0 ∧
    (predict_disaster_from_location 20 50 0 1020 36 (-118) 10 3 (-0.1) 0 0 1
        0).earthquake_risk =
      min (pyround ((earthquake_prediction (2 / 5)).probability * 10) 1)
        10.0 := by
  have h := display_scores_spec 20 50 0 1020 36 (-118) 10 3 (-0.1) 0 0 1 0 0
  exact ⟨(h.2.1 ca_find_flood).1,
    h.2.2.2.2.2.2.1 (earthquake_prediction (2 / 5)) ca_find_earthquake⟩

/-- C10: outside every geological zone the earthquake risk never exceeds
0.02 * 1.3 + 0.02 = 0.046 for any fault-distance factor in [0.7, 1.3] and
jitter in [-0.02, 0.02], the bound is attained at the extreme draws, it does
not exceed the 0.05 inclusion threshold, and hence the earthquake hazard
never appears in the assembled list. -/
theorem earthquake_outside_zones_spec (lat lon : ℚ)
    (hout : ∀ z ∈ risk_zones, ¬ inZone z lat lon) (ff je : ℚ)
    (hf1 : 0.7 ≤ ff) (hf2 : ff ≤ 1.3) (hj1 : -0.02 ≤ je) (hj2 : je ≤ 0.02) :
    calculate_earthquake_risk lat lon ff je ≤ 0.046 ∧
    calculate_earthquake_risk lat lon 1.3 0.02 = 0.046 ∧
    (0.046 : ℚ) ≤ 0.05 ∧
    (∀ (temp humidity wind pressure : ℚ) (month : ℕ) (jw jf js : ℚ),
      "earthquake" ∉ (enhanced_disaster_prediction temp humidity wind
        pressure lat lon month jw jf js ff je).map Prediction.type) := by
  have hbase := earthquake_base_risk_of_outside hout
  have hrisk : calculate_earthquake_risk lat lon ff je ≤ 0.046 := by
    unfold calculate_earthquake_risk
    rw [hbase]
    have h1 : (0.02 : ℚ) * ff + je ≤ 0.046 := by nlinarith
    exact le_trans (max_le_max le_rfl (min_le_right _ _))
      (max_le (by norm_num) h1)
  refine ⟨hrisk, ?_, by norm_num, ?_⟩
  · unfold calculate_earthquake_risk
    rw [hbase]
    norm_num [min_def, max_def]
  · intro temp humidity wind pressure month jw jf js hmem
    obtain ⟨p, hp, ht⟩ := List.mem_map.mp hmem
    rw [mem_enhanced_iff] at hp
    rcases hp with ⟨hc, rfl⟩ | ⟨hc, rfl⟩ | ⟨hc, rfl⟩ | ⟨hc, rfl⟩ |
      ⟨h1, h2, h3, h4, rfl⟩
    · simp [wildfire_prediction] at ht
    · simp [flood_prediction] at ht
    · simp [storm_prediction] at ht
    · linarith [hc, hrisk]
    · simp [low_risk_prediction] at ht

/-- Witness for C10: the bound and the exclusion at the origin with the
central draws. -/
theorem earthquake_outside_zones_spec_witness :
    calculate_earthquake_risk 0 0 1 0 ≤ 0.046 ∧
    "earthquake" ∉ (enhanced_disaster_prediction 25 60 10 1013 0 0 7 0 0 0 1
      0).map Prediction.type := by
  have hout : ∀ z ∈ risk_zones, ¬ inZone z (0 : ℚ) (0 : ℚ) := by
    intro z hz
    simp only [risk_zones, List.mem_cons, List.not_mem_nil, or_false] at hz
    rcases hz with rfl | rfl | rfl | rfl <;> norm_num [inZone]
  have h := earthquake_outside_zones_spec 0 0 hout 1 0 (by norm_num)
    (by norm_num) (by norm_num) (by norm_num)
  exact ⟨h.1, h.2.2.2 25 60 10 1013 7 0 0 0⟩

end AlertAid
